import Mathlib

/-!
Verification of the code-comparison routines of the `python-excel-check`
repository (two source files, `script.py` and `app.py`).

Shallow embedding conventions:

* A spreadsheet cell is `Option Value`: `none` models a missing (NaN) cell,
  `some v` a present value. A `Value` is an integer cell, a floating-point
  cell, or a text cell.  Floating-point cells are modelled as rationals; all
  claims only ever evaluate floats whose value is an integer (such as
  `1001.0`), where this model is exact.  The decimal rendering of a
  non-integer float (Python `str`) is approximated by `num/den`; no theorem
  below depends on that branch.
* Reading an Excel file from disk (`pd.read_excel`) is abstracted away: each
  embedded function receives the parsed `DataFrame` together with the file
  name it came from.  `FileUnreadable`-style I/O failures are out of scope.
  The file arguments of the `app.py` comparison are `PyFile`s, which record
  whether the Python value is a `FileStorage` (exposing a `filename`
  attribute) or a plain `str` path (not exposing one): formatting the report
  header reads that attribute, so it raises `AttributeError` on the `str`
  paths that `upload_files` actually passes.
* Python `set` built over values uses `__eq__`/`__hash__`, under which the
  int `1001` and the float `1001.0` are the same element.  It is modelled as
  a duplicate-free list (`pySet`) with membership up to `pyEq`.
* Python exceptions become `Except` results.
-/

/-- Equality of `Except` results is decidable when both components are,
letting concrete runs of the embedded functions be checked by `decide`. -/
instance {ε α : Type} [DecidableEq ε] [DecidableEq α] :
    DecidableEq (Except ε α)
  | .ok a, .ok b =>
      if h : a = b then .isTrue (by rw [h]) else .isFalse (by simp [h])
  | .error e, .error f =>
      if h : e = f then .isTrue (by rw [h]) else .isFalse (by simp [h])
  | .ok _, .error _ => .isFalse (by simp)
  | .error _, .ok _ => .isFalse (by simp)

/-- A scalar spreadsheet cell value: numeric (int or float) or text. -/
inductive Value where
  | vInt (n : Int)
  | vFloat (q : Rat)
  | vStr (s : String)
deriving DecidableEq, Repr

/-- Python equality (`__eq__`) on cell values: ints and floats compare
numerically across the two types, strings compare as strings, and numbers
never equal strings. -/
def pyEq : Value → Value → Bool
  | .vInt a, .vInt b => decide (a = b)
  | .vInt a, .vFloat q => decide ((a : Rat) = q)
  | .vFloat q, .vInt a => decide (q = (a : Rat))
  | .vFloat p, .vFloat q => decide (p = q)
  | .vStr s, .vStr t => decide (s = t)
  | .vInt _, .vStr _ => false
  | .vFloat _, .vStr _ => false
  | .vStr _, .vInt _ => false
  | .vStr _, .vFloat _ => false

/-- Python `str()` of a cell value, as produced by pandas `astype(str)`:
an int prints its decimal digits, a float with zero fractional part prints
with a trailing `.0` (so `1001.0` becomes the string `"1001.0"`), a string is
itself.  Non-integer floats are rendered as `num/den`, an approximation of
the decimal notation Python uses; every theorem below evaluates this
function only on ints, strings and integer-valued floats, where the model is
exact. -/
def pyStr : Value → String
  | .vInt n => toString n
  | .vFloat q => if q.den = 1 then toString q.num ++ ".0"
                 else toString q.num ++ "/" ++ toString q.den
  | .vStr s => s

/-- Python `str.lower()` (pandas `.str.lower()`), modelled as lowering each
character.  `Char.toLower` lowers the ASCII range, which covers every code
appearing in the spec and in the theorems below. -/
def strLower (s : String) : String := String.mk (s.data.map Char.toLower)

/-- A spreadsheet column: a list of cells, `none` being a missing (NaN)
cell. -/
abbrev Column := List (Option Value)

/-- A parsed spreadsheet (pandas `DataFrame`): named columns of cells. -/
structure DataFrame where
  cols : List (String × Column)
deriving DecidableEq, Repr

/-- Look a column up by name (`df[name]`, guarded by `name in df.columns`). -/
def DataFrame.getCol (df : DataFrame) (name : String) : Option Column :=
  (df.cols.find? (fun p => p.1 == name)).map Prod.snd

/-- The present (non-missing) cell values of a named column, in row order:
`df[c].dropna()`.  An absent column gives `[]`. -/
def colCells (df : DataFrame) (c : String) : List Value :=
  ((df.getCol c).getD []).filterMap id

/-- Normalization applied by `script.py` to one cell:
`astype(str)` followed, in case-insensitive mode, by `.str.lower()`. -/
def normalizeValue (caseSensitive : Bool) (v : Value) : String :=
  if caseSensitive then pyStr v else strLower (pyStr v)

/-- The normalized Code Set `script.py` extracts from one column: the
deduplicated normalized values of the present cells. -/
def codeSet (df : DataFrame) (c : String) (caseSensitive : Bool) :
    Finset String :=
  ((colCells df c).map (normalizeValue caseSensitive)).toFinset

/-- Errors raised by `script.py` (`ValueError`s, distinguished by message). -/
inductive ScriptError where
  | columnNotFound (columnName : String) (filePath : String)
  | invalidDirection
deriving DecidableEq, Repr

namespace CodeComparisonTool

/-- Embeds `CodeComparisonTool._load_excel_column` of `script.py`: validate
that the column exists (else `ValueError`), drop missing cells, coerce to
`str`, lower-case unless case-sensitive, and collect into a set. -/
def load_excel_column (df : DataFrame) (filePath : String)
    (columnName : String) (caseSensitive : Bool) :
    Except ScriptError (Finset String) :=
  match df.getCol columnName with
  | none => .error (.columnNotFound columnName filePath)
  | some col =>
      let vals := (col.filterMap id).map pyStr
      if caseSensitive then .ok vals.toFinset
      else .ok (vals.map strLower).toFinset

/-- Embeds `CodeComparisonTool.compare_codes` of `script.py`: load both
columns, then take the set difference in the requested direction
(`left_to_right` gives codes1 minus codes2, `right_to_left` the reverse,
anything else raises `ValueError("Invalid comparison direction")`), and
return the missing codes when `return_missing` is set, else `None`. -/
def compare_codes (df1 : DataFrame) (file1 : String) (column1 : String)
    (df2 : DataFrame) (file2 : String) (column2 : String)
    (caseSensitive : Bool) (comparisonDirection : String)
    (returnMissing : Bool) : Except ScriptError (Option (Finset String)) :=
  match load_excel_column df1 file1 column1 caseSensitive with
  | .error e => .error e
  | .ok codes1 =>
  match load_excel_column df2 file2 column2 caseSensitive with
  | .error e => .error e
  | .ok codes2 =>
  match (if comparisonDirection == "left_to_right" then
           Except.ok (codes1 \ codes2)
         else if comparisonDirection == "right_to_left" then
           Except.ok (codes2 \ codes1)
         else Except.error ScriptError.invalidDirection) with
  | .error e => .error e
  | .ok missingCodes => .ok (if returnMissing then some missingCodes else none)

end CodeComparisonTool

/-- Is the value numeric (int or float)?  Python can order two numbers and
two strings, but comparing a number with a string raises `TypeError`. -/
def Value.isNum : Value → Bool
  | .vStr _ => false
  | _ => true

/-- The numeric content of a numeric value (strings, never ordered through
this function, map to 0). -/
def Value.toRat : Value → Rat
  | .vInt n => (n : Rat)
  | .vFloat q => q
  | .vStr _ => 0

/-- The textual content of a string value (numbers, never ordered through
this function, map to the empty string). -/
def Value.strVal : Value → String
  | .vStr s => s
  | _ => ""

/-- Numeric order used by Python `sorted` on an all-numeric list. -/
def numLe (a b : Value) : Bool := decide (a.toRat ≤ b.toRat)

/-- Code-point lexicographic order used by Python `sorted` on an all-string
list. -/
def strLe (a b : Value) : Bool := decide (a.strVal ≤ b.strVal)

/-- Python `<=` between two cell values: defined between two numbers and
between two strings, false (in truth: a `TypeError`) across the two kinds. -/
def pythonLe (a b : Value) : Bool :=
  if a.isNum && b.isNum then numLe a b
  else if !a.isNum && !b.isNum then strLe a b
  else false

/-- Python `sorted` on a list of cell values: sorts an all-numeric list
numerically and an all-string list lexicographically; a list mixing the two
kinds raises `TypeError`, since producing it needs a number/string
comparison. -/
def pySorted (l : List Value) : Except Unit (List Value) :=
  if l.all Value.isNum then .ok (l.mergeSort numLe)
  else if l.all (fun v => !(Value.isNum v)) then .ok (l.mergeSort strLe)
  else .error ()

/-- Python set membership test under `__eq__`. -/
def pyMem (v : Value) (s : List Value) : Bool := s.any (fun w => pyEq w v)

/-- Add an element to a Python set modelled as a duplicate-free list: a value
already present (up to `pyEq`) is not added again. -/
def pyInsert (s : List Value) (v : Value) : List Value :=
  if pyMem v s then s else s ++ [v]

/-- Python `set(...)` over a list of values. -/
def pySet (vs : List Value) : List Value := vs.foldl pyInsert []

/-- Python set difference `a - b`: the elements of `a` not in `b` (membership
up to `pyEq`). -/
def pyDiff (a b : List Value) : List Value :=
  a.filter (fun v => !(pyMem v b))

/-- The Python set of raw (unnormalized) values `app.py` extracts from a
column: `set(df[c].dropna())`. -/
def appCodes (df : DataFrame) (c : String) : List Value :=
  pySet (colCells df c)

/-- A file argument as `CodeComparisonApp.compare_codes` of `app.py` may
receive it.  The signature declares `werkzeug` `FileStorage` objects, which
expose a `filename` attribute; the only caller, `upload_files`, instead
passes plain `str` paths, which expose no such attribute.  Either kind can
be read by `pd.read_excel` (abstracted here to the carried `DataFrame`). -/
inductive PyFile where
  | storage (df : DataFrame) (filename : String)
  | path (df : DataFrame) (pathStr : String)
deriving DecidableEq, Repr

/-- The parsed spreadsheet `pd.read_excel` yields for a file argument. -/
def PyFile.df : PyFile → DataFrame
  | .storage d _ => d
  | .path d _ => d

/-- The `filename` attribute of a file argument: present on a `FileStorage`,
absent on a plain `str` path — accessing it on the latter raises
`AttributeError`. -/
def PyFile.filenameAttr : PyFile → Option String
  | .storage _ fn => some fn
  | .path _ _ => none

/-- Errors raised by `CodeComparisonApp.compare_codes` of `app.py`: the
`ValueError` for missing columns (raised before the report file is opened);
the `AttributeError` raised while formatting the header line when a file
argument is a plain `str` path without a `filename` attribute — at that
point the blank line and the opening delimiter have been written, and the
error records them; and the `TypeError` raised by `sorted` on a mixed-kind
difference set — at that point the header lines have been written, and the
error records them. -/
inductive AppError where
  | columnsNotFound (colonna1 colonna2 : String)
  | attributeError (writtenLines : List String)
  | sortTypeError (writtenLines : List String)
deriving DecidableEq, Repr

/-- The delimiter line of the report: forty dashes. -/
def dashes : String := String.mk (List.replicate 40 '-')

/-- A single-quote character as a string (used in the report header). -/
def singleQuote : String := String.singleton (Char.ofNat 39)

/-- The header line of the report, naming the two files. -/
def titleLine (fn1 fn2 : String) : String :=
  "Codes in " ++ singleQuote ++ fn1 ++ singleQuote ++ " missing from " ++ singleQuote ++ fn2 ++ singleQuote ++ ":"

/-- How `app.py` renders one missing code into a report line: a float with
zero fractional part is first converted to `int` (so `1001.0` prints as
`1001`), everything else prints with `str`. -/
def renderCode : Value → String
  | .vInt n => toString n
  | .vFloat q => if q.den = 1 then toString q.num else pyStr (.vFloat q)
  | .vStr s => s

namespace CodeComparisonApp

/-- Embeds `CodeComparisonApp.compare_codes` of `app.py`.  Both columns are
validated first (one `ValueError` naming both column names, raised before
any writing); the raw present values of each column are collected into
Python sets and the difference `codici1 - codici2` (always first minus
second) is taken.  The report file is then written: first a blank line and
a forty-dash line, then the header line — formatting the header reads the
`filename` attribute of both file arguments, so when either is a plain
`str` path (as on the call from `upload_files`) an `AttributeError` is
raised here, leaving only the blank line and the opening delimiter
written.  Otherwise the body follows: either the codes sorted ascending
(floats with zero fractional part rendered as ints) or the line
`No missing codes.`, and a closing forty-dash line.  On success the
function returns the lines written and the number of missing codes. -/
def compare_codes (file1 : PyFile) (colonna1 : String)
    (file2 : PyFile) (colonna2 : String) :
    Except AppError (List String × Nat) :=
  if (file1.df.getCol colonna1).isNone || (file2.df.getCol colonna2).isNone then
    .error (.columnsNotFound colonna1 colonna2)
  else
    let codici1 := appCodes file1.df colonna1
    let codici2 := appCodes file2.df colonna2
    let mancanti := pyDiff codici1 codici2
    match file1.filenameAttr, file2.filenameAttr with
    | some filename1, some filename2 =>
      let header : List String := ["", dashes, titleLine filename1 filename2]
      if mancanti.isEmpty then
        .ok (header ++ ["No missing codes.", dashes], mancanti.length)
      else
        match pySorted mancanti with
        | .error _ => .error (.sortTypeError header)
        | .ok sortedCodes =>
            .ok (header ++ sortedCodes.map renderCode ++ [dashes],
                 mancanti.length)
    | _, _ => .error (.attributeError ["", dashes])

/-- The part of a file name after its last dot, as the Python rsplit on a
dot takes it when a dot is present. -/
def extensionOf (filename : String) : String :=
  String.mk ((filename.data.reverse.takeWhile (fun c => c ≠ Char.ofNat 46)).reverse)

/-- Embeds `CodeComparisonApp.allowed_file`: the name contains a dot and the
extension after the last dot, lower-cased, is `xlsx` or `xls`. -/
def allowed_file (filename : String) : Bool :=
  filename.data.contains (Char.ofNat 46) &&
    (strLower (extensionOf filename) == "xlsx"
      || strLower (extensionOf filename) == "xls")

/-- Outcome of the upload route: a flash-message redirect, or the rendered
results page with the missing-code count. -/
inductive UploadResult where
  | redirect (flashMessage : String)
  | rendered (totalLines : Nat)
deriving DecidableEq, Repr

/-- Embeds `CodeComparisonApp.upload_files` of `app.py` (POST branch).
Validation failures redirect before anything is saved.  Otherwise both
uploads are saved under `uploads/` and `compare_codes` is called with the
two saved *path strings* (`file1=filepath1`, `file2=filepath2`), not with
the `FileStorage` objects its signature declares; on success both saved
files are removed (`os.remove`) before rendering, and if `compare_codes`
raises, the handler flashes the error and redirects — the `os.remove`
calls are skipped.  The second component of the result is the list of
saved files still on disk when the invocation ends.
`werkzeug.secure_filename` sanitization (an external library) is not
modelled; the flash text of the error branch is abbreviated. -/
def upload_files (file1Present file2Present : Bool) (fn1 fn2 : String)
    (df1 df2 : DataFrame) (colonna1 colonna2 : String) :
    UploadResult × List String :=
  if !file1Present || !file2Present then (.redirect "No file part", [])
  else if fn1 == "" || fn2 == "" then (.redirect "No selected file", [])
  else if !(allowed_file fn1 && allowed_file fn2) then
    (.redirect "Invalid file type. Only Excel files are allowed.", [])
  else
    let filepath1 := "uploads/" ++ fn1
    let filepath2 := "uploads/" ++ fn2
    match compare_codes (.path df1 filepath1) colonna1
        (.path df2 filepath2) colonna2 with
    | .ok (_, totalLines) => (.rendered totalLines, [])
    | .error _ => (.redirect "An error occurred", [filepath1, filepath2])

end CodeComparisonApp

theorem load_excel_column_eq_codeSet (df : DataFrame) (fp c : String)
    (cs : Bool) (col : Column) (h : df.getCol c = some col) :
    CodeComparisonTool.load_excel_column df fp c cs = .ok (codeSet df c cs) := by
  unfold CodeComparisonTool.load_excel_column codeSet colCells normalizeValue
  rw [h]
  cases cs <;> simp [List.map_map, Function.comp_def]

/-! Concrete datasets used by witnesses and counterexamples. -/

/-- A one-column spreadsheet `Barcode = [1001, 1002, 1003]` (integer cells),
the first file of the worked example in the spec. -/
def dfBarcodes : DataFrame :=
  ⟨[("Barcode", [some (Value.vInt 1001), some (Value.vInt 1002),
                 some (Value.vInt 1003)])]⟩

/-- A one-column spreadsheet `UPC = [1002.0, 1003.0]` (float cells), the
second file of the worked example in the spec. -/
def dfUPC : DataFrame :=
  ⟨[("UPC", [some (Value.vFloat 1002), some (Value.vFloat 1003)])]⟩

/-- A spreadsheet whose `Barcode` column holds the single integer `1001`. -/
def dfInt1001 : DataFrame := ⟨[("Barcode", [some (Value.vInt 1001)])]⟩

/-- A spreadsheet whose `UPC` column holds the single float `1001.0`. -/
def dfFloat1001 : DataFrame := ⟨[("UPC", [some (Value.vFloat 1001)])]⟩

/-- A spreadsheet whose `Code` column holds the single text `"ABC"`. -/
def dfStrABC : DataFrame := ⟨[("Code", [some (Value.vStr "ABC")])]⟩

/-- A spreadsheet whose `Code` column holds the single text `"abc"`. -/
def dfStrabc : DataFrame := ⟨[("Code", [some (Value.vStr "abc")])]⟩

/-- C1: for datasets whose named columns both exist, `compare_codes` of
`script.py` reports exactly the set-theoretic difference of the two
normalized code sets in the requested direction: `left_to_right` gives
(normalized codes of A) minus (normalized codes of B), `right_to_left` the
reverse. -/
theorem C1_compare_codes_reports_set_difference
    (df1 df2 : DataFrame) (fp1 c1 fp2 c2 : String) (cs : Bool)
    (h1 : (df1.getCol c1).isSome) (h2 : (df2.getCol c2).isSome) :
    CodeComparisonTool.compare_codes df1 fp1 c1 df2 fp2 c2 cs
        "left_to_right" true
      = .ok (some (codeSet df1 c1 cs \ codeSet df2 c2 cs))
    ∧ CodeComparisonTool.compare_codes df1 fp1 c1 df2 fp2 c2 cs
        "right_to_left" true
      = .ok (some (codeSet df2 c2 cs \ codeSet df1 c1 cs)) := by
  obtain ⟨col1, hc1⟩ := Option.isSome_iff_exists.mp h1
  obtain ⟨col2, hc2⟩ := Option.isSome_iff_exists.mp h2
  unfold CodeComparisonTool.compare_codes
  rw [load_excel_column_eq_codeSet df1 fp1 c1 cs col1 hc1,
      load_excel_column_eq_codeSet df2 fp2 c2 cs col2 hc2]
  exact ⟨rfl, rfl⟩

/-- Witness for C1 at the worked example of the spec. -/
theorem C1_witness :
    CodeComparisonTool.compare_codes dfBarcodes "file_a.xlsx" "Barcode"
        dfUPC "file_b.xlsx" "UPC" false "left_to_right" true
      = .ok (some (codeSet dfBarcodes "Barcode" false \ codeSet dfUPC "UPC" false))
    ∧ CodeComparisonTool.compare_codes dfBarcodes "file_a.xlsx" "Barcode"
        dfUPC "file_b.xlsx" "UPC" false "right_to_left" true
      = .ok (some (codeSet dfUPC "UPC" false \ codeSet dfBarcodes "Barcode" false)) :=
  C1_compare_codes_reports_set_difference dfBarcodes dfUPC "file_a.xlsx"
    "Barcode" "file_b.xlsx" "UPC" false (by decide) (by decide)

/-- C2 counterexample: with the integer `1001` in one dataset and the float
`1001.0` in the other, `script.py` normalizes them to the distinct strings
`"1001"` and `"1001.0"`, so the value does appear in the difference sets
of both directions — the claimed collapse of integer-valued floats does not
happen before differencing. -/
theorem C2_counterexample :
    normalizeValue false (Value.vInt 1001)
      ≠ normalizeValue false (Value.vFloat 1001)
    ∧ CodeComparisonTool.compare_codes dfInt1001 "file_a.xlsx" "Barcode"
        dfFloat1001 "file_b.xlsx" "UPC" false "left_to_right" true
      = .ok (some {"1001"})
    ∧ CodeComparisonTool.compare_codes dfInt1001 "file_a.xlsx" "Barcode"
        dfFloat1001 "file_b.xlsx" "UPC" false "right_to_left" true
      = .ok (some {"1001.0"}) := by
  refine ⟨by decide, by decide, by decide⟩

/-- C2 amended: `compare_codes` of `script.py` coerces cells with `str`
before differencing, rendering the integer `1001` and the float `1001.0` as
the distinct codes `"1001"` and `"1001.0"`, so the value is spuriously
reported as missing in both directions; the raw-value difference that
`app.py` computes before any output is written is instead empty in both
orders of the two datasets, because the int `1001` and the float `1001.0`
are the same element under Python equality. -/
theorem C2_amended_app_no_spurious_difference :
    pyEq (Value.vInt 1001) (Value.vFloat 1001) = true
    ∧ pyDiff (appCodes dfInt1001 "Barcode") (appCodes dfFloat1001 "UPC") = []
    ∧ pyDiff (appCodes dfFloat1001 "UPC") (appCodes dfInt1001 "Barcode") = []
    ∧ CodeComparisonTool.compare_codes dfInt1001 "file_a.xlsx" "Barcode"
        dfFloat1001 "file_b.xlsx" "UPC" false "left_to_right" true
      = .ok (some {"1001"})
    ∧ CodeComparisonTool.compare_codes dfInt1001 "file_a.xlsx" "Barcode"
        dfFloat1001 "file_b.xlsx" "UPC" false "right_to_left" true
      = .ok (some {"1001.0"}) := by
  refine ⟨by decide, by decide, by decide, by decide, by decide⟩

/-- C3: requesting a column name absent from either dataset makes both
comparison routines fail with their column-not-found error and return no
result: `script.py` raises the `ValueError` naming the missing column and
its file, `app.py` raises the `ValueError` naming both columns, and in both
embeddings the error result carries no difference set and no report
lines. -/
theorem C3_missing_column_aborts
    (df1 df2 : DataFrame) (fp1 c1 fp2 c2 : String) (cs : Bool) (dir : String)
    (rm : Bool) (f1 f2 : PyFile) (hdf1 : f1.df = df1) (hdf2 : f2.df = df2)
    (h : df1.getCol c1 = none ∨ df2.getCol c2 = none) :
    (∃ colName fileName,
      CodeComparisonTool.compare_codes df1 fp1 c1 df2 fp2 c2 cs dir rm
        = .error (ScriptError.columnNotFound colName fileName))
    ∧ CodeComparisonApp.compare_codes f1 c1 f2 c2
        = .error (AppError.columnsNotFound c1 c2) := by
  constructor
  · cases hc1 : df1.getCol c1 with
    | none =>
        refine ⟨c1, fp1, ?_⟩
        unfold CodeComparisonTool.compare_codes
          CodeComparisonTool.load_excel_column
        rw [hc1]
    | some col1 =>
        have hc2 : df2.getCol c2 = none := by
          rcases h with h | h
          · rw [h] at hc1; exact absurd hc1 (by simp)
          · exact h
        refine ⟨c2, fp2, ?_⟩
        unfold CodeComparisonTool.compare_codes
        rw [load_excel_column_eq_codeSet df1 fp1 c1 cs col1 hc1]
        unfold CodeComparisonTool.load_excel_column
        rw [hc2]
  · subst hdf1
    subst hdf2
    have hcond : ((f1.df.getCol c1).isNone || (f2.df.getCol c2).isNone)
        = true := by
      rcases h with h | h <;> simp [h]
    unfold CodeComparisonApp.compare_codes
    rw [hcond]
    rfl

/-- Witness for C3: a dataset with no `Nope` column, the `app.py` side
invoked with the plain path strings `upload_files` actually passes. -/
theorem C3_witness :
    (∃ colName fileName,
      CodeComparisonTool.compare_codes dfBarcodes "file_a.xlsx" "Nope"
          dfUPC "file_b.xlsx" "UPC" false "left_to_right" true
        = .error (ScriptError.columnNotFound colName fileName))
    ∧ CodeComparisonApp.compare_codes
        (.path dfBarcodes "uploads/file_a.xlsx") "Nope"
        (.path dfUPC "uploads/file_b.xlsx") "UPC"
        = .error (AppError.columnsNotFound "Nope" "UPC") :=
  C3_missing_column_aborts dfBarcodes dfUPC "file_a.xlsx" "Nope"
    "file_b.xlsx" "UPC" false "left_to_right" true
    (.path dfBarcodes "uploads/file_a.xlsx")
    (.path dfUPC "uploads/file_b.xlsx") rfl rfl (Or.inl (by decide))

/-- C4: wherever the column of one dataset contains the text `"ABC"` and
that of the other contains `"abc"`, case-insensitive normalization maps both
to the same code `"abc"`, which therefore appears in the difference of the
two code sets in neither direction; case-sensitive normalization keeps them distinct, and
on singleton datasets `script.py` then reports `"ABC"` as missing while the
case-insensitive run reports nothing. -/
theorem C4_case_sensitivity
    (dfA dfB : DataFrame) (cA cB : String)
    (hA : Value.vStr "ABC" ∈ colCells dfA cA)
    (hB : Value.vStr "abc" ∈ colCells dfB cB) :
    normalizeValue false (Value.vStr "ABC")
      = normalizeValue false (Value.vStr "abc")
    ∧ "abc" ∉ codeSet dfA cA false \ codeSet dfB cB false
    ∧ "abc" ∉ codeSet dfB cB false \ codeSet dfA cA false
    ∧ normalizeValue true (Value.vStr "ABC")
      ≠ normalizeValue true (Value.vStr "abc")
    ∧ CodeComparisonTool.compare_codes dfStrABC "f1.xlsx" "Code"
        dfStrabc "f2.xlsx" "Code" true "left_to_right" true
      = .ok (some {"ABC"})
    ∧ CodeComparisonTool.compare_codes dfStrABC "f1.xlsx" "Code"
        dfStrabc "f2.xlsx" "Code" false "left_to_right" true
      = .ok (some ∅) := by
  have h1 : "abc" ∈ codeSet dfA cA false := by
    unfold codeSet
    rw [List.mem_toFinset]
    exact List.mem_map.mpr ⟨Value.vStr "ABC", hA, by decide⟩
  have h2 : "abc" ∈ codeSet dfB cB false := by
    unfold codeSet
    rw [List.mem_toFinset]
    exact List.mem_map.mpr ⟨Value.vStr "abc", hB, by decide⟩
  refine ⟨by decide, ?_, ?_, by decide, by decide, by decide⟩
  · intro hmem
    exact (Finset.mem_sdiff.mp hmem).2 h2
  · intro hmem
    exact (Finset.mem_sdiff.mp hmem).2 h1

/-- Witness for C4 on the singleton `"ABC"` / `"abc"` datasets. -/
theorem C4_witness :
    normalizeValue false (Value.vStr "ABC")
      = normalizeValue false (Value.vStr "abc")
    ∧ "abc" ∉ codeSet dfStrABC "Code" false \ codeSet dfStrabc "Code" false
    ∧ "abc" ∉ codeSet dfStrabc "Code" false \ codeSet dfStrABC "Code" false
    ∧ normalizeValue true (Value.vStr "ABC")
      ≠ normalizeValue true (Value.vStr "abc")
    ∧ CodeComparisonTool.compare_codes dfStrABC "f1.xlsx" "Code"
        dfStrabc "f2.xlsx" "Code" true "left_to_right" true
      = .ok (some {"ABC"})
    ∧ CodeComparisonTool.compare_codes dfStrABC "f1.xlsx" "Code"
        dfStrabc "f2.xlsx" "Code" false "left_to_right" true
      = .ok (some ∅) :=
  C4_case_sensitivity dfStrABC dfStrabc "Code" "Code" (by decide) (by decide)

/-- C5 counterexample: on the only call shape the program exercises —
`upload_files` passes plain `str` paths — an invocation whose difference
set is empty crashes with `AttributeError` while formatting the header,
after writing just the blank line and the opening delimiter: the produced
output has no `No missing codes.` marker and an empty, ambiguous body. -/
theorem C5_counterexample :
    pyDiff (appCodes dfInt1001 "Barcode") (appCodes dfFloat1001 "UPC") = []
    ∧ CodeComparisonApp.compare_codes
        (.path dfInt1001 "uploads/file_a.xlsx") "Barcode"
        (.path dfFloat1001 "uploads/file_b.xlsx") "UPC"
      = .error (AppError.attributeError ["", dashes])
    ∧ "No missing codes." ∉ ["", dashes] := by
  refine ⟨by decide, by decide, by decide⟩

/-- C5 amended: the explicit-marker logic is reachable only through the
declared `FileStorage` interface: when both file arguments expose a
`filename` attribute and the difference is empty, the report is the full
delimited block with the explicit `No missing codes.` line and count 0; on
the call path the program actually has — plain `str` paths from
`upload_files` — formatting the header raises `AttributeError`, and the
file written for an empty difference holds only a blank line and the
opening delimiter, never the marker. -/
theorem C5_marker_requires_filename
    (df1 df2 : DataFrame) (fn1 c1 fn2 c2 p1 p2 : String)
    (h1 : (df1.getCol c1).isSome) (h2 : (df2.getCol c2).isSome)
    (hd : pyDiff (appCodes df1 c1) (appCodes df2 c2) = []) :
    CodeComparisonApp.compare_codes (.storage df1 fn1) c1
        (.storage df2 fn2) c2
      = .ok (["", dashes, titleLine fn1 fn2, "No missing codes.", dashes], 0)
    ∧ "No missing codes."
        ∈ ["", dashes, titleLine fn1 fn2, "No missing codes.", dashes]
    ∧ CodeComparisonApp.compare_codes (.path df1 p1) c1 (.path df2 p2) c2
      = .error (AppError.attributeError ["", dashes]) := by
  have hcond : ((df1.getCol c1).isNone || (df2.getCol c2).isNone) = false := by
    rw [Bool.or_eq_false_iff]
    constructor <;> simp_all [Option.isNone_iff_eq_none, Option.isSome_iff_exists]
  refine ⟨?_, by simp, ?_⟩
  · unfold CodeComparisonApp.compare_codes
    simp only [PyFile.df, PyFile.filenameAttr]
    rw [hcond]
    simp [hd]
  · unfold CodeComparisonApp.compare_codes
    simp only [PyFile.df, PyFile.filenameAttr]
    rw [hcond]
    rfl

/-- Witness for C5 amended: the int `1001` against the float `1001.0` —
equal under Python equality, so the difference is empty; the marker appears
on the `FileStorage` shape and the path shape stops at the delimiter. -/
theorem C5_witness :
    CodeComparisonApp.compare_codes
        (.storage dfInt1001 "file_a.xlsx") "Barcode"
        (.storage dfFloat1001 "file_b.xlsx") "UPC"
      = .ok (["", dashes, titleLine "file_a.xlsx" "file_b.xlsx",
              "No missing codes.", dashes], 0)
    ∧ "No missing codes."
        ∈ ["", dashes, titleLine "file_a.xlsx" "file_b.xlsx",
           "No missing codes.", dashes]
    ∧ CodeComparisonApp.compare_codes
        (.path dfInt1001 "uploads/file_a.xlsx") "Barcode"
        (.path dfFloat1001 "uploads/file_b.xlsx") "UPC"
      = .error (AppError.attributeError ["", dashes]) :=
  C5_marker_requires_filename dfInt1001 dfFloat1001 "file_a.xlsx" "Barcode"
    "file_b.xlsx" "UPC" "uploads/file_a.xlsx" "uploads/file_b.xlsx"
    (by decide) (by decide) (by decide)

/-- `_load_excel_column` either succeeds or fails with the column-not-found
error for its own column and file; it never raises the direction error. -/
theorem load_excel_column_cases (df : DataFrame) (fp c : String) (cs : Bool) :
    (∃ s, CodeComparisonTool.load_excel_column df fp c cs = .ok s)
    ∨ CodeComparisonTool.load_excel_column df fp c cs
        = .error (.columnNotFound c fp) := by
  unfold CodeComparisonTool.load_excel_column
  cases df.getCol c with
  | none => exact Or.inr rfl
  | some col => cases cs <;> exact Or.inl ⟨_, rfl⟩

/-- C6 counterexample: an invocation whose direction flag is unrecognized
but whose first column is missing fails with the column-not-found error,
not the invalid-direction error, because `compare_codes` of `script.py`
loads both columns before checking the direction — so an unrecognized
direction does not always produce `InvalidDirection`. -/
theorem C6_counterexample :
    CodeComparisonTool.compare_codes dfBarcodes "file_a.xlsx" "Nope"
        dfUPC "file_b.xlsx" "UPC" false "sideways" true
      = .error (ScriptError.columnNotFound "Nope" "file_a.xlsx")
    ∧ ScriptError.columnNotFound "Nope" "file_a.xlsx"
        ≠ ScriptError.invalidDirection := by
  refine ⟨by decide, by decide⟩

/-- C6 amended: with both named columns present, a direction flag that is
neither `left_to_right` nor `right_to_left` makes `compare_codes` of
`script.py` fail with the invalid-direction error (with a missing column
the column error is raised first, since both columns load before the
direction check); for the two recognized flags the function never returns
that error, whatever the inputs. -/
theorem C6_invalid_direction
    (df1 df2 : DataFrame) (fp1 c1 fp2 c2 : String) (cs rm : Bool)
    (dir : String) (h1 : (df1.getCol c1).isSome) (h2 : (df2.getCol c2).isSome)
    (hl : dir ≠ "left_to_right") (hr : dir ≠ "right_to_left") :
    CodeComparisonTool.compare_codes df1 fp1 c1 df2 fp2 c2 cs dir rm
      = .error ScriptError.invalidDirection
    ∧ ∀ (e1 e2 : DataFrame) (g1 d1 g2 d2 : String) (cs2 rm2 : Bool)
        (d : String), (d = "left_to_right" ∨ d = "right_to_left") →
        CodeComparisonTool.compare_codes e1 g1 d1 e2 g2 d2 cs2 d rm2
          ≠ .error ScriptError.invalidDirection := by
  constructor
  · obtain ⟨col1, hc1⟩ := Option.isSome_iff_exists.mp h1
    obtain ⟨col2, hc2⟩ := Option.isSome_iff_exists.mp h2
    have hbl : (dir == "left_to_right") = false := beq_eq_false_iff_ne.mpr hl
    have hbr : (dir == "right_to_left") = false := beq_eq_false_iff_ne.mpr hr
    unfold CodeComparisonTool.compare_codes
    rw [load_excel_column_eq_codeSet df1 fp1 c1 cs col1 hc1,
        load_excel_column_eq_codeSet df2 fp2 c2 cs col2 hc2, hbl, hbr]
    rfl
  · rintro e1 e2 g1 d1 g2 d2 cs2 rm2 d hd hcontra
    unfold CodeComparisonTool.compare_codes at hcontra
    rcases load_excel_column_cases e1 g1 d1 cs2 with ⟨s1, hs1⟩ | hs1 <;>
      rcases load_excel_column_cases e2 g2 d2 cs2 with ⟨s2, hs2⟩ | hs2 <;>
      rw [hs1, hs2] at hcontra <;>
      rcases hd with rfl | rfl <;>
      simp_all

/-- Witness for C6 at the direction string produced by no UI choice. -/
theorem C6_witness :
    CodeComparisonTool.compare_codes dfBarcodes "file_a.xlsx" "Barcode"
        dfUPC "file_b.xlsx" "UPC" false "sideways" true
      = .error ScriptError.invalidDirection
    ∧ ∀ (e1 e2 : DataFrame) (g1 d1 g2 d2 : String) (cs2 rm2 : Bool)
        (d : String), (d = "left_to_right" ∨ d = "right_to_left") →
        CodeComparisonTool.compare_codes e1 g1 d1 e2 g2 d2 cs2 d rm2
          ≠ .error ScriptError.invalidDirection :=
  C6_invalid_direction dfBarcodes dfUPC "file_a.xlsx" "Barcode" "file_b.xlsx"
    "UPC" false true "sideways" (by decide) (by decide) (by decide) (by decide)

/-- C7 counterexample: a POST with two well-formed uploads but a missing
column name makes `compare_codes` raise; `upload_files` then flashes and
redirects without reaching the `os.remove` calls, so both files saved for
this invocation are still on disk when it ends — resources are not released
on failure. -/
theorem C7_counterexample :
    CodeComparisonApp.upload_files true true "file_a.xlsx" "file_b.xlsx"
        dfBarcodes dfUPC "Nope" "UPC"
      = (.redirect "An error occurred",
         ["uploads/file_a.xlsx", "uploads/file_b.xlsx"]) := by decide

/-- `compare_codes` called with two plain `str` paths — the only call
shape occurring in the source — never succeeds: it fails with the column
error before any write, or with the `AttributeError` raised while
formatting the header, after the blank line and the opening delimiter. -/
theorem compare_codes_path_errors (df1 df2 : DataFrame)
    (p1 c1 p2 c2 : String) :
    CodeComparisonApp.compare_codes (.path df1 p1) c1 (.path df2 p2) c2
      = .error (AppError.columnsNotFound c1 c2)
    ∨ CodeComparisonApp.compare_codes (.path df1 p1) c1 (.path df2 p2) c2
      = .error (AppError.attributeError ["", dashes]) := by
  unfold CodeComparisonApp.compare_codes
  split
  · exact Or.inl rfl
  · exact Or.inr rfl

/-- C7 amended: the files saved for an invocation are never deleted.
Validation failures redirect before anything is saved; every invocation
that does save the two uploads ends with `compare_codes` raising — the
`ValueError` when a column is missing, otherwise the `AttributeError` at
the header write, since `upload_files` passes plain `str` paths without a
`filename` attribute — so the handler redirects without reaching the
`os.remove` calls and both saved files remain on disk. -/
theorem C7_uploads_never_deleted
    (fn1 fn2 : String) (df1 df2 : DataFrame) (c1 c2 : String)
    (hn1 : fn1 ≠ "") (hn2 : fn2 ≠ "")
    (ha1 : CodeComparisonApp.allowed_file fn1 = true)
    (ha2 : CodeComparisonApp.allowed_file fn2 = true) :
    CodeComparisonApp.upload_files true true fn1 fn2 df1 df2 c1 c2
      = (.redirect "An error occurred",
         ["uploads/" ++ fn1, "uploads/" ++ fn2]) := by
  have hb1 : (fn1 == "") = false := beq_eq_false_iff_ne.mpr hn1
  have hb2 : (fn2 == "") = false := beq_eq_false_iff_ne.mpr hn2
  unfold CodeComparisonApp.upload_files
  rw [hb1, hb2, ha1, ha2]
  simp only [Bool.not_true, Bool.or_self, Bool.false_or, Bool.and_self,
    Bool.not_false, if_false, if_true, Bool.false_eq_true, ite_false]
  rcases compare_codes_path_errors df1 df2 ("uploads/" ++ fn1) c1
    ("uploads/" ++ fn2) c2 with h | h <;> rw [h]

/-- Witness for C7 amended: a well-formed upload pair whose comparison
reaches the header write and crashes there, leaving both files on disk. -/
theorem C7_witness :
    CodeComparisonApp.upload_files true true "file_a.xlsx" "file_b.xlsx"
        dfInt1001 dfFloat1001 "Barcode" "UPC"
      = (.redirect "An error occurred",
         ["uploads/" ++ "file_a.xlsx", "uploads/" ++ "file_b.xlsx"]) :=
  C7_uploads_never_deleted "file_a.xlsx" "file_b.xlsx" dfInt1001 dfFloat1001
    "Barcode" "UPC" (by decide) (by decide) (by decide) (by decide)

/-- `numLe` is transitive (it is the rational order on numeric contents). -/
theorem numLe_trans : ∀ (a b c : Value), numLe a b → numLe b c → numLe a c := by
  intro a b c hab hbc
  simp only [numLe, decide_eq_true_eq] at *
  exact le_trans hab hbc

/-- `numLe` is total. -/
theorem numLe_total : ∀ (a b : Value), numLe a b || numLe b a := by
  intro a b
  simp only [numLe, Bool.or_eq_true, decide_eq_true_eq]
  exact le_total a.toRat b.toRat

/-- `strLe` is transitive (it is the string order on textual contents). -/
theorem strLe_trans : ∀ (a b c : Value), strLe a b → strLe b c → strLe a c := by
  intro a b c hab hbc
  simp only [strLe, decide_eq_true_eq] at *
  exact le_trans hab hbc

/-- `strLe` is total. -/
theorem strLe_total : ∀ (a b : Value), strLe a b || strLe b a := by
  intro a b
  simp only [strLe, Bool.or_eq_true, decide_eq_true_eq]
  exact le_total a.strVal b.strVal

/-- When Python `sorted` succeeds its output is a permutation of its input
that is pairwise ordered under the Python comparison `pythonLe`. -/
theorem pySorted_ok_spec (l sc : List Value) (heq : pySorted l = .ok sc) :
    sc.Perm l ∧ sc.Pairwise (fun a b => pythonLe a b = true) := by
  unfold pySorted at heq
  split at heq
  · rename_i hall
    have hsc : sc = l.mergeSort numLe := ((Except.ok.injEq _ _).mp heq).symm
    subst hsc
    refine ⟨List.mergeSort_perm l numLe, ?_⟩
    have hp2 := List.Pairwise.and_mem.mp
      (List.sorted_mergeSort numLe_trans numLe_total l)
    refine hp2.imp ?_
    intro a b hr
    obtain ⟨ha, hb, hab⟩ := hr
    have haN : a.isNum = true :=
      List.all_eq_true.mp hall _ ((List.mergeSort_perm l numLe).mem_iff.mp ha)
    have hbN : b.isNum = true :=
      List.all_eq_true.mp hall _ ((List.mergeSort_perm l numLe).mem_iff.mp hb)
    simp [pythonLe, haN, hbN, hab]
  · split at heq
    · rename_i hall
      have hsc : sc = l.mergeSort strLe := ((Except.ok.injEq _ _).mp heq).symm
      subst hsc
      refine ⟨List.mergeSort_perm l strLe, ?_⟩
      have hp2 := List.Pairwise.and_mem.mp
        (List.sorted_mergeSort strLe_trans strLe_total l)
      refine hp2.imp ?_
      intro a b hr
      obtain ⟨ha, hb, hab⟩ := hr
      have haN : a.isNum = false := by
        have := List.all_eq_true.mp hall _
          ((List.mergeSort_perm l strLe).mem_iff.mp ha)
        simpa using this
      have hbN : b.isNum = false := by
        have := List.all_eq_true.mp hall _
          ((List.mergeSort_perm l strLe).mem_iff.mp hb)
        simpa using this
      simp [pythonLe, haN, hbN, hab]
    · exact absurd heq (by simp)

/-- C8 counterexample: the worked example of the spec has the non-empty
difference set {1001}, yet on the call shape the program exercises —
plain `str` paths from `upload_files` — the run crashes with
`AttributeError` while formatting the header, after writing only the blank
line and the opening delimiter: no delimited block of sorted codes is ever
produced. -/
theorem C8_counterexample :
    pyDiff (appCodes dfBarcodes "Barcode") (appCodes dfUPC "UPC")
      = [Value.vInt 1001]
    ∧ CodeComparisonApp.compare_codes
        (.path dfBarcodes "uploads/file_a.xlsx") "Barcode"
        (.path dfUPC "uploads/file_b.xlsx") "UPC"
      = .error (AppError.attributeError ["", dashes]) := by
  refine ⟨by decide, by decide⟩

/-- C8 amended: the delimited sorted block is produced only through the
declared `FileStorage` interface: whenever `compare_codes` applied to two
files exposing a `filename` attribute returns a report with a non-zero
count, that report is the delimited block — blank line, forty-dash
delimiter, header line, the missing codes one per line, forty-dash footer —
with the codes a permutation of the difference set arranged in ascending
order under the Python comparison; on the plain-path shape that
`upload_files` actually uses, no report is ever returned. -/
theorem C8_sorted_block_requires_filename
    (df1 df2 : DataFrame) (fn1 c1 fn2 c2 : String) (lines : List String)
    (n : Nat)
    (h : CodeComparisonApp.compare_codes (.storage df1 fn1) c1
          (.storage df2 fn2) c2 = .ok (lines, n))
    (hn : n ≠ 0) :
    (∃ sortedCodes : List Value,
      lines = ["", dashes, titleLine fn1 fn2]
        ++ sortedCodes.map renderCode ++ [dashes]
      ∧ sortedCodes.Perm (pyDiff (appCodes df1 c1) (appCodes df2 c2))
      ∧ sortedCodes.Pairwise (fun a b => pythonLe a b = true))
    ∧ ∀ (p1 p2 : String) (r : List String × Nat),
        CodeComparisonApp.compare_codes (.path df1 p1) c1 (.path df2 p2) c2
          ≠ .ok r := by
  constructor
  · unfold CodeComparisonApp.compare_codes at h
    simp only [PyFile.df, PyFile.filenameAttr] at h
    split at h
    · exact absurd h (by simp)
    · split at h
      · rename_i hemp
        exfalso
        rw [List.isEmpty_iff] at hemp
        have hinj := (Except.ok.injEq _ _).mp h
        have : n = 0 := by
          have := congrArg Prod.snd hinj
          simp [hemp] at this
          omega
        exact hn this
      · split at h
        · exact absurd h (by simp)
        · rename_i sc heq
          have hinj := (Except.ok.injEq _ _).mp h
          have hlines : lines = ["", dashes, titleLine fn1 fn2]
              ++ sc.map renderCode ++ [dashes] := by
            have := congrArg Prod.fst hinj
            simp at this
            exact this.symm
          obtain ⟨hperm, hpair⟩ := pySorted_ok_spec _ _ heq
          exact ⟨sc, hlines, hperm, hpair⟩
  · intro p1 p2 r hcontra
    rcases compare_codes_path_errors df1 df2 p1 c1 p2 c2 with he | he <;>
      rw [he] at hcontra <;> simp at hcontra

/-- Witness for C8 amended at the worked example of the spec, whose
difference set is the single code 1001. -/
theorem C8_witness :
    (∃ sortedCodes : List Value,
      ["", dashes, titleLine "file_a.xlsx" "file_b.xlsx", "1001", dashes]
        = ["", dashes, titleLine "file_a.xlsx" "file_b.xlsx"]
          ++ sortedCodes.map renderCode ++ [dashes]
      ∧ sortedCodes.Perm
          (pyDiff (appCodes dfBarcodes "Barcode") (appCodes dfUPC "UPC"))
      ∧ sortedCodes.Pairwise (fun a b => pythonLe a b = true))
    ∧ ∀ (p1 p2 : String) (r : List String × Nat),
        CodeComparisonApp.compare_codes (.path dfBarcodes p1) "Barcode"
          (.path dfUPC p2) "UPC" ≠ .ok r :=
  C8_sorted_block_requires_filename dfBarcodes dfUPC "file_a.xlsx" "Barcode"
    "file_b.xlsx" "UPC"
    ["", dashes, titleLine "file_a.xlsx" "file_b.xlsx", "1001", dashes] 1
    (by
      simp [CodeComparisonApp.compare_codes, PyFile.df, PyFile.filenameAttr,
        appCodes, colCells, DataFrame.getCol, dfBarcodes, dfUPC, pySet,
        pyInsert, pyMem, pyDiff, pyEq, pySorted, Value.isNum, renderCode,
        List.find?]
      decide)
    (by decide)

/-- Membership after a Python-set insertion comes from the set or is the
inserted value. -/
theorem mem_pyInsert (v w : Value) (s : List Value)
    (h : v ∈ pyInsert s w) : v ∈ s ∨ v = w := by
  unfold pyInsert at h
  split at h
  · exact Or.inl h
  · rcases List.mem_append.mp h with h2 | h2
    · exact Or.inl h2
    · exact Or.inr (List.mem_singleton.mp h2)

/-- Python-set insertion preserves freedom from `pyEq`-duplicates. -/
theorem pairwise_pyInsert (w : Value) (s : List Value)
    (hs : s.Pairwise (fun a b => pyEq a b = false)) :
    (pyInsert s w).Pairwise (fun a b => pyEq a b = false) := by
  unfold pyInsert
  split
  · exact hs
  · rename_i hmem
    unfold pyMem at hmem
    rw [List.pairwise_append]
    refine ⟨hs, List.pairwise_singleton _ _, ?_⟩
    intro a ha b hb
    rw [List.mem_singleton] at hb
    subst hb
    by_contra hne
    rw [Bool.not_eq_false] at hne
    exact hmem (List.any_eq_true.mpr ⟨a, ha, hne⟩)

/-- The fold building a Python set preserves freedom from
`pyEq`-duplicates. -/
theorem pySet_go_pairwise (l : List Value) :
    ∀ acc : List Value, acc.Pairwise (fun a b => pyEq a b = false) →
    (l.foldl pyInsert acc).Pairwise (fun a b => pyEq a b = false) := by
  induction l with
  | nil => exact fun acc hacc => hacc
  | cons x xs ih => exact fun acc hacc => ih _ (pairwise_pyInsert x acc hacc)

/-- A Python set holds no two `pyEq`-equal elements. -/
theorem pySet_pairwise (l : List Value) :
    (pySet l).Pairwise (fun a b => pyEq a b = false) :=
  pySet_go_pairwise l [] List.Pairwise.nil

/-- Elements of the set-building fold come from the accumulator or from the
input list. -/
theorem mem_pySet_go (l : List Value) :
    ∀ (acc : List Value) (v : Value), v ∈ l.foldl pyInsert acc →
    v ∈ acc ∨ v ∈ l := by
  induction l with
  | nil => exact fun acc v h => Or.inl h
  | cons x xs ih =>
      intro acc v h
      rcases ih _ v h with h2 | h2
      · rcases mem_pyInsert v x acc h2 with h3 | h3
        · exact Or.inl h3
        · exact Or.inr (h3 ▸ List.mem_cons_self x xs)
      · exact Or.inr (List.mem_cons_of_mem x h2)

/-- Every element of a Python set is an element of the list it was built
from. -/
theorem mem_pySet (l : List Value) (v : Value) (h : v ∈ pySet l) : v ∈ l := by
  rcases mem_pySet_go l [] v h with h2 | h2
  · exact absurd h2 (List.not_mem_nil v)
  · exact h2

/-- A successful `_load_excel_column` returns exactly the normalized code
set of its column. -/
theorem load_excel_column_ok (df : DataFrame) (fp c : String) (cs : Bool)
    (s : Finset String)
    (h : CodeComparisonTool.load_excel_column df fp c cs = .ok s) :
    s = codeSet df c cs := by
  cases hc : df.getCol c with
  | none =>
      unfold CodeComparisonTool.load_excel_column at h
      rw [hc] at h
      exact absurd h (by simp)
  | some col =>
      rw [load_excel_column_eq_codeSet df fp c cs col hc] at h
      exact ((Except.ok.injEq _ _).mp h).symm

/-- C9: code sets contain no missing values (every element comes from a
present cell) and no duplicates (the sets of `script.py` are `Finset`s by
construction; the Python sets of `app.py` hold no two `pyEq`-equal
elements), and a comparison result is a subset of the code set of the
reference dataset of its direction — for the raw-value difference of
`app.py` and for both directions of the normalized difference of
`script.py`. -/
theorem C9_invariants :
    (∀ col : Column, ∀ v ∈ pySet (col.filterMap id), some v ∈ col)
    ∧ (∀ col : Column,
        (pySet (col.filterMap id)).Pairwise (fun a b => pyEq a b = false))
    ∧ (∀ a b : List Value, ∀ v ∈ pyDiff a b, v ∈ a)
    ∧ (∀ (df : DataFrame) (c : String) (cs : Bool), ∀ x ∈ codeSet df c cs,
        ∃ v : Value, some v ∈ (df.getCol c).getD []
          ∧ x = normalizeValue cs v)
    ∧ (∀ (df1 df2 : DataFrame) (fp1 c1 fp2 c2 : String) (cs : Bool)
        (s : Finset String),
        CodeComparisonTool.compare_codes df1 fp1 c1 df2 fp2 c2 cs
            "left_to_right" true = .ok (some s) → s ⊆ codeSet df1 c1 cs)
    ∧ (∀ (df1 df2 : DataFrame) (fp1 c1 fp2 c2 : String) (cs : Bool)
        (s : Finset String),
        CodeComparisonTool.compare_codes df1 fp1 c1 df2 fp2 c2 cs
            "right_to_left" true = .ok (some s) → s ⊆ codeSet df2 c2 cs) := by
  refine ⟨?_, ?_, ?_, ?_, ?_, ?_⟩
  · intro col v hv
    obtain ⟨a, ha, hav⟩ := List.mem_filterMap.mp (mem_pySet _ v hv)
    rw [← hav]
    exact ha
  · exact fun col => pySet_pairwise _
  · intro a b v hv
    exact (List.mem_filter.mp hv).1
  · intro df c cs x hx
    obtain ⟨v, hv, hvx⟩ := List.mem_map.mp (List.mem_toFinset.mp hx)
    obtain ⟨a, ha, hav⟩ := List.mem_filterMap.mp hv
    have hav2 : a = some v := by simpa using hav
    subst hav2
    exact ⟨v, ha, hvx.symm⟩
  · intro df1 df2 fp1 c1 fp2 c2 cs s hok
    rcases load_excel_column_cases df1 fp1 c1 cs with ⟨s1, hs1⟩ | hs1 <;>
      rcases load_excel_column_cases df2 fp2 c2 cs with ⟨s2, hs2⟩ | hs2 <;>
      unfold CodeComparisonTool.compare_codes at hok <;>
      rw [hs1, hs2] at hok <;> simp at hok
    rw [load_excel_column_ok df1 fp1 c1 cs s1 hs1,
        load_excel_column_ok df2 fp2 c2 cs s2 hs2] at hok
    rw [← hok]
    exact Finset.sdiff_subset
  · intro df1 df2 fp1 c1 fp2 c2 cs s hok
    rcases load_excel_column_cases df1 fp1 c1 cs with ⟨s1, hs1⟩ | hs1 <;>
      rcases load_excel_column_cases df2 fp2 c2 cs with ⟨s2, hs2⟩ | hs2 <;>
      unfold CodeComparisonTool.compare_codes at hok <;>
      rw [hs1, hs2] at hok <;> simp at hok
    rw [load_excel_column_ok df1 fp1 c1 cs s1 hs1,
        load_excel_column_ok df2 fp2 c2 cs s2 hs2] at hok
    rw [← hok]
    exact Finset.sdiff_subset

/-- Witness for C9 at a concrete column and a concrete comparison. -/
theorem C9_witness :
    some (Value.vInt 1001) ∈
      [some (Value.vInt 1001), none, some (Value.vFloat 1001)]
    ∧ Value.vInt 1001 ∈ [Value.vInt 1001, Value.vStr "x"] :=
  ⟨C9_invariants.1 [some (Value.vInt 1001), none, some (Value.vFloat 1001)]
      (Value.vInt 1001) (by decide),
   C9_invariants.2.2.1 [Value.vInt 1001, Value.vStr "x"] [Value.vStr "x"]
      (Value.vInt 1001) (by decide)⟩

/-- C10: with both columns present, a `right_to_left` comparison returns
exactly what a `left_to_right` comparison returns on the swapped file and
column arguments. -/
theorem C10_direction_swap
    (df1 df2 : DataFrame) (fp1 c1 fp2 c2 : String) (cs rm : Bool)
    (h1 : (df1.getCol c1).isSome) (h2 : (df2.getCol c2).isSome) :
    CodeComparisonTool.compare_codes df1 fp1 c1 df2 fp2 c2 cs
        "right_to_left" rm
      = CodeComparisonTool.compare_codes df2 fp2 c2 df1 fp1 c1 cs
        "left_to_right" rm := by
  obtain ⟨col1, hc1⟩ := Option.isSome_iff_exists.mp h1
  obtain ⟨col2, hc2⟩ := Option.isSome_iff_exists.mp h2
  unfold CodeComparisonTool.compare_codes
  rw [load_excel_column_eq_codeSet df1 fp1 c1 cs col1 hc1,
      load_excel_column_eq_codeSet df2 fp2 c2 cs col2 hc2]
  rfl

/-- Witness for C10 at the worked example of the spec. -/
theorem C10_witness :
    CodeComparisonTool.compare_codes dfBarcodes "file_a.xlsx" "Barcode"
        dfUPC "file_b.xlsx" "UPC" false "right_to_left" true
      = CodeComparisonTool.compare_codes dfUPC "file_b.xlsx" "UPC"
        dfBarcodes "file_a.xlsx" "Barcode" false "left_to_right" true :=
  C10_direction_swap dfBarcodes dfUPC "file_a.xlsx" "Barcode" "file_b.xlsx"
    "UPC" false true (by decide) (by decide)
